import Mathlib

/-!
Shallow embedding of the trynoice/january playback core
(`src/media-player.ts`, `src/sound-player-manager.ts` with its embedded
`SoundPlayer` class). TypeScript classes become explicit state records,
methods become pure state-transition functions; observable side effects
(events dispatched, commands issued to players, timeouts scheduled) are
returned explicitly. Numeric audio quantities (clock times, durations,
volumes) are modelled as rationals; millisecond delays as naturals.
-/

namespace January

/-- Embeds `SoundPlayerState` enum from `sound-player-manager.ts` (SoundPlayer part). -/
inductive SoundPlayerState where
  | Idle
  | Buffering
  | Playing
  | Pausing
  | Paused
  | Stopping
  | Stopped
deriving DecidableEq, Repr

/-- Embeds `SoundPlayerManagerState` enum from `sound-player-manager.ts`. -/
inductive SoundPlayerManagerState where
  | Idle
  | Playing
  | Paused
deriving DecidableEq, Repr

open SoundPlayerState

/-- Embeds `SoundPlayerManager.reconcileState`: the fold over
`this.soundPlayers.values()` computing the `isPaused` flag.  A sound in any
state other than Stopping, Pausing or Paused clears the flag. -/
def isPausedFlag (states : List SoundPlayerState) : Bool :=
  states.all fun s => s == Stopping || s == Pausing || s == Paused

/-- Embeds `SoundPlayerManager.reconcileState`: the fold computing the `isIdle`
flag.  A sound in any state other than Stopping or Stopped clears it. -/
def isIdleFlag (states : List SoundPlayerState) : Bool :=
  states.all fun s => s == Stopping || s == Stopped

/-- Embeds `SoundPlayerManager.reconcileState` (lines 343-368): the manager state
computed from the per-player states currently in the `soundPlayers`
registry: `isIdle ? Idle : isPaused ? Paused : Playing`. -/
def reconcileState (states : List SoundPlayerState) : SoundPlayerManagerState :=
  if isIdleFlag states then SoundPlayerManagerState.Idle
  else if isPausedFlag states then SoundPlayerManagerState.Paused
  else SoundPlayerManagerState.Playing

/-- Embeds `SoundPlayerManager.onSoundPlayerStateChangeEvent` deletes a player from
the registry as soon as it reports `Stopped` (lines 335-337), before
`reconcileState` runs; hence the registry never holds a `Stopped` player when
the state is reconciled.  `liveSessions` is the registry contents after that
disposal. -/
def liveSessions (states : List SoundPlayerState) : List SoundPlayerState :=
  states.filter fun s => s != Stopped

/-! ### Event channels (`EventTarget` and the manager's named events) -/

/-- Embeds `SoundPlayerManager.EVENT_STATE_CHANGE` (also `SoundPlayer.EVENT_STATE_CHANGE`
and `MediaPlayer.EVENT_STATE_CHANGE`): all are the string `'statechange'`. -/
def EVENT_STATE_CHANGE : String := "statechange"

/-- Embeds `SoundPlayerManager.EVENT_VOLUME_CHANGE`: the string `'volumechange'`. -/
def EVENT_VOLUME_CHANGE : String := "volumechange"

/-- A DOM `EventTarget`'s listener table: pairs of event type and callback
identity, in registration order.  Callbacks are identified by a number. -/
abbrev EventTarget := List (String × Nat)

/-- DOM `addEventListener`: registering an already-present (type, callback)
pair is a no-op; otherwise the pair is appended. -/
def EventTarget.addEventListener (et : EventTarget) (event : String) (cb : Nat) :
    EventTarget :=
  if (event, cb) ∈ et then et else et ++ [(event, cb)]

/-- DOM `removeEventListener`: detaches the (type, callback) pair. -/
def EventTarget.removeEventListener (et : EventTarget) (event : String) (cb : Nat) :
    EventTarget :=
  et.filter fun p => p ≠ (event, cb)

/-- DOM `dispatchEvent`: the callbacks invoked for an event of the given
type, in registration order. -/
def EventTarget.dispatch (et : EventTarget) (event : String) : List Nat :=
  (et.filter fun p => p.1 = event).map Prod.snd

/-- Embeds `SoundPlayerManager.addSoundVolumeListener` (lines 295-300): registers
the callback on the `` `${soundId}.${EVENT_VOLUME_CHANGE}` `` channel. -/
def SoundPlayerManager.addSoundVolumeListener (et : EventTarget) (soundId : String)
    (cb : Nat) : EventTarget :=
  et.addEventListener (soundId ++ "." ++ EVENT_VOLUME_CHANGE) cb

/-- Embeds `SoundPlayerManager.removeSoundVolumeListener` (lines 306-311): removes
the callback from the `` `${soundId}.${EVENT_STATE_CHANGE}` `` channel (the
source really names `EVENT_STATE_CHANGE` here, not `EVENT_VOLUME_CHANGE`). -/
def SoundPlayerManager.removeSoundVolumeListener (et : EventTarget) (soundId : String)
    (cb : Nat) : EventTarget :=
  et.removeEventListener (soundId ++ "." ++ EVENT_STATE_CHANGE) cb

/-! ### `SoundPlayerManager.playSound` / `resume` -/

/-- The registry keys of `this.soundPlayers` after
`this.soundPlayers.get(soundId) ?? this.initSoundPlayer(soundId)` in
`playSound` (line 180-181): `initSoundPlayer` inserts a fresh player under
`soundId` when absent (line 316); a JS `Map` appends new keys at the end. -/
def playSoundRegistry (registry : List String) (soundId : String) : List String :=
  if soundId ∈ registry then registry else registry ++ [soundId]

/-- Embeds `SoundPlayerManager.playSound` (lines 179-187): the sound ids whose
player receives a `play()` call.  When the manager state is `Paused` it
calls `resume()` (lines 199-201), i.e. `this.soundPlayers.forEach((player)
=> player.play())` over the registry (which now contains `soundId`);
otherwise only the player fetched or created for `soundId` is played. -/
def SoundPlayerManager.playSoundPlays (state : SoundPlayerManagerState)
    (registry : List String) (soundId : String) : List String :=
  if state = SoundPlayerManagerState.Paused then playSoundRegistry registry soundId
  else [soundId]

/-! ### Volume model (`MediaPlayer.setVolume`, `SoundPlayer` volume pipeline,
`SoundPlayerManager.setVolume` / `setSoundVolume`) -/

/-- The volume-related fields of `MediaPlayer`: the stored `volume` and the
gain node's current value (`this.gainNode.gain.value`). -/
structure MediaPlayerVolume where
  volume : ℚ := 1
  gainValue : ℚ := 1
deriving DecidableEq, Repr

/-- Embeds `MediaPlayer.setVolume` (lines 91-98): throws before any assignment when
the argument is out of `[0, 1]`; otherwise stores it and sets the gain. -/
def MediaPlayer.setVolume (_p : MediaPlayerVolume) (volume : ℚ) :
    Except String MediaPlayerVolume :=
  if volume < 0 ∨ volume > 1 then .error "volume must be in range [0, 1]"
  else .ok { volume := volume, gainValue := volume }

/-- The volume-related fields of a `SoundPlayer`: `masterVolume` and
`volume`, both initialised to 1.  The manager only ever calls the
`setVolume` member (with the premultiplied product), never
`setMasterVolume`, so `masterVolume` stays 1 for manager-owned players. -/
structure SoundPlayerVolume where
  masterVolume : ℚ := 1
  volume : ℚ := 1
deriving DecidableEq, Repr

/-- Embeds `SoundPlayer.getScaledVolume` (lines 608-610):
`Math.pow(this.masterVolume * this.volume, 2)`. -/
def SoundPlayer.getScaledVolume (p : SoundPlayerVolume) : ℚ :=
  (p.masterVolume * p.volume) ^ 2

/-- Embeds `SoundPlayer.setVolumeInternal` (lines 602-606): stores both multipliers
and pushes `fadeTo(this.getScaledVolume(), 1.5)` to the media player; the
second component is the gain value pushed. -/
def SoundPlayer.setVolumeInternal (masterVolume volume : ℚ) :
    SoundPlayerVolume × ℚ :=
  let p : SoundPlayerVolume := { masterVolume := masterVolume, volume := volume }
  (p, SoundPlayer.getScaledVolume p)

/-- Embeds `SoundPlayer.setVolume` (lines 598-600). -/
def SoundPlayer.setVolume (p : SoundPlayerVolume) (volume : ℚ) :
    SoundPlayerVolume × ℚ :=
  SoundPlayer.setVolumeInternal p.masterVolume volume

/-- Embeds `SoundPlayer.setMasterVolume` (lines 594-596). -/
def SoundPlayer.setMasterVolume (p : SoundPlayerVolume) (volume : ℚ) :
    SoundPlayerVolume × ℚ :=
  SoundPlayer.setVolumeInternal volume p.volume

/-- JS `Map.set`: replaces the value in place when the key exists (keeping
insertion order), appends otherwise. -/
def mapSet {α : Type} (k : String) (v : α) : List (String × α) → List (String × α)
  | [] => [(k, v)]
  | (k', v') :: rest => if k' = k then (k, v) :: rest else (k', v') :: mapSet k v rest

/-- The volume-related fields of `SoundPlayerManager`: the master `volume`,
the remembered per-sound multipliers (`soundPlayerVolumes`), and the live
player registry (`soundPlayers`) reduced to each player's volume fields. -/
structure ManagerVolumes where
  volume : ℚ := 1
  soundPlayerVolumes : List (String × ℚ) := []
  soundPlayers : List (String × SoundPlayerVolume) := []
deriving DecidableEq, Repr

/-- Outcome of a manager volume setter: the new manager state, the gains
pushed to underlying media players as `(soundId, gain)` pairs, and the
event names dispatched on the manager's event target. -/
abbrev VolumeSetterResult := ManagerVolumes × List (String × ℚ) × List String

/-- Embeds `SoundPlayerManager.setVolume` (lines 121-132): validates the range
(throwing before any mutation), stores the master volume, pushes
`player.setVolume(volume * (this.soundPlayerVolumes.get(soundId) ?? 1))` to
every registered player, and always dispatches `EVENT_VOLUME_CHANGE`. -/
def SoundPlayerManager.setVolume (m : ManagerVolumes) (volume : ℚ) :
    Except String VolumeSetterResult :=
  if volume < 0 ∨ volume > 1 then .error "volume must be in range [0, 1]"
  else
    let results := m.soundPlayers.map fun (soundId, p) =>
      (soundId, SoundPlayer.setVolume p
        (volume * ((m.soundPlayerVolumes.lookup soundId).getD 1)))
    .ok
      ({ m with
          volume := volume,
          soundPlayers := results.map fun (soundId, pg) => (soundId, pg.1) },
        results.map fun (soundId, pg) => (soundId, pg.2),
        [EVENT_VOLUME_CHANGE])

/-- Embeds `SoundPlayerManager.setSoundVolume` (lines 148-156): validates the range
(throwing before any mutation), remembers the per-sound multiplier, pushes
`this.volume * volume` to the sound's player when one is registered
(`this.soundPlayers.get(soundId)?.setVolume(...)`), and always dispatches
the per-sound `EVENT_VOLUME_CHANGE`. -/
def SoundPlayerManager.setSoundVolume (m : ManagerVolumes) (soundId : String)
    (volume : ℚ) : Except String VolumeSetterResult :=
  if volume < 0 ∨ volume > 1 then .error "volume must be in range [0, 1]"
  else
    let soundPlayerVolumes := mapSet soundId volume m.soundPlayerVolumes
    let event := soundId ++ "." ++ EVENT_VOLUME_CHANGE
    match m.soundPlayers.lookup soundId with
    | some p =>
      let (p', gain) := SoundPlayer.setVolume p (m.volume * volume)
      .ok
        ({ m with
            soundPlayerVolumes := soundPlayerVolumes,
            soundPlayers := mapSet soundId p' m.soundPlayers },
          [(soundId, gain)], [event])
    | none =>
      .ok ({ m with soundPlayerVolumes := soundPlayerVolumes }, [], [event])

/-- The events dispatched by a successful manager volume setter (none on a
thrown error). -/
def setterEvents (r : Except String VolumeSetterResult) : List String :=
  match r with
  | .ok (_, _, events) => events
  | .error _ => []

/-- The gains pushed to media players by a successful manager volume setter. -/
def setterGains (r : Except String VolumeSetterResult) : List (String × ℚ) :=
  match r with
  | .ok (_, gains, _) => gains
  | .error _ => []

/-! ### Guarded state-change notifications -/

/-- Lines 370-375 of `SoundPlayerManager.reconcileState`: the state is
stored and `EVENT_STATE_CHANGE` dispatched only when the reconciled value
differs from the current one. -/
def SoundPlayerManager.applyReconciledState
    (state managerState : SoundPlayerManagerState) :
    SoundPlayerManagerState × List String :=
  if state = managerState then (state, [])
  else (managerState, [EVENT_STATE_CHANGE])

/-- Embeds `SoundPlayer.setState` (lines 735-742): stores the state and dispatches
`EVENT_STATE_CHANGE` only when it differs from the current one. -/
def SoundPlayer.setState (state s : SoundPlayerState) :
    SoundPlayerState × List String :=
  if state = s then (state, []) else (s, [EVENT_STATE_CHANGE])

/-! ### `SoundPlayer.loadMetadata` retry backoff -/

/-- Embeds `SoundPlayer.MIN_RETRY_DELAY_MILLIS = 1 * 1000` (line 426). -/
def MIN_RETRY_DELAY_MILLIS : Nat := 1 * 1000

/-- Embeds `SoundPlayer.MAX_RETRY_DELAY_MILLIS = 30 * 1000` (line 427). -/
def MAX_RETRY_DELAY_MILLIS : Nat := 30 * 1000

/-- The metadata-loading fields of a `SoundPlayer`:
`isLoadingMetadata` and `metadataRetryDelayMillis` (initially
`MIN_RETRY_DELAY_MILLIS`). -/
structure MetadataState where
  isLoadingMetadata : Bool := false
  metadataRetryDelayMillis : Nat := MIN_RETRY_DELAY_MILLIS
deriving DecidableEq, Repr

/-- What `loadMetadata` does after its awaited fetch settles. -/
inductive MetadataAction where
  /-- Embeds `setTimeout(() => this.loadMetadata(soundId), delayMillis)` -/
  | scheduleRetry (delayMillis : Nat)
  /-- the success path's final `this.queueNextSegment()` call -/
  | queueNextSegment
deriving DecidableEq, Repr

/-- One settled run of `SoundPlayer.loadMetadata` (lines 665-733): on
success it clears `isLoadingMetadata`, resets the retry delay to
`MIN_RETRY_DELAY_MILLIS` and queues the next segment; on any failure it
first doubles the stored delay (capping at `MAX_RETRY_DELAY_MILLIS`) and
then schedules the retry with that already-doubled value. -/
def SoundPlayer.loadMetadataStep (s : MetadataState) (fetchOk : Bool) :
    MetadataState × MetadataAction :=
  if fetchOk then
    ({ isLoadingMetadata := false,
       metadataRetryDelayMillis := MIN_RETRY_DELAY_MILLIS },
      MetadataAction.queueNextSegment)
  else
    let d := min (s.metadataRetryDelayMillis * 2) MAX_RETRY_DELAY_MILLIS
    ({ s with metadataRetryDelayMillis := d }, MetadataAction.scheduleRetry d)

/-- Delay (ms) scheduled before attempt `n + 1` after `n` consecutive
failures starting from a fresh (or just-reset) delay of
`MIN_RETRY_DELAY_MILLIS`; `retryDelayAfterFailures 0` is the stored value
before any failure. -/
def retryDelayAfterFailures : Nat → Nat
  | 0 => MIN_RETRY_DELAY_MILLIS
  | n + 1 =>
    ((SoundPlayer.loadMetadataStep
        { isLoadingMetadata := true,
          metadataRetryDelayMillis := retryDelayAfterFailures n }
        false).1).metadataRetryDelayMillis

/-! ### `SoundPlayer.queueNextSegment` segment selection -/

/-- The `Segment` interface of `sound-player-manager.ts` (lines 404-411);
`from`/`to` are present only on bridges (TS optional fields become
`Option`, and `from` is renamed `fromName`, `to` renamed `toName`, because
Lean reserves those words). -/
structure Segment where
  name : String
  basePath : String
  isFree : Bool
  isBridge : Bool
  fromName : Option String := none
  toName : Option String := none
deriving DecidableEq, Repr

/-- The `validSegments` local of `queueNextSegment` (lines 531-533). -/
def validSegmentsOf (segments : List Segment)
    (isPremiumSegmentsEnabled : Bool) : List Segment :=
  if isPremiumSegmentsEnabled then segments else segments.filter (·.isFree)

/-- The selection logic of `SoundPlayer.queueNextSegment` (lines 530-554),
up to the null check that throws.  `rand` is the random oracle: `rand n`
models `Math.floor(Math.random() * n)` and is in `[0, n)` for `n > 0` (and
yields an absent element, i.e. `none`, when the candidate list is empty). -/
def selectNextSegment (segments : List Segment)
    (isPremiumSegmentsEnabled : Bool) (currentSegment : Option Segment)
    (maxSilenceSeconds : Nat) (rand : Nat → Nat) : Option Segment :=
  let validSegments := validSegmentsOf segments isPremiumSegmentsEnabled
  match currentSegment with
  | some cs =>
    if cs.isBridge then
      -- contiguous sound is playing a bridge segment, find its destination!
      validSegments.find? fun s => some s.name == cs.toName
    else if maxSilenceSeconds = 0 then
      -- contiguous sound is playing a regular segment, find a bridge!
      let validBridges := validSegments.filter fun s => s.fromName == some cs.name
      validBridges.get? (rand validBridges.length)
    else
      validSegments.get? (rand validSegments.length)
  | none => validSegments.get? (rand validSegments.length)

/-! ### `MediaPlayer` timeline scheduling -/

/-- The scheduling cursor of a `MediaPlayer`: `nextChunkStartTime`. -/
structure Timeline where
  nextChunkStartTime : ℚ
deriving DecidableEq, Repr

/-- The cursor/start-time logic of `MediaPlayer.appendToAudioContext`
(lines 251-263): clamp the cursor up to `now`, start the source at the
cursor, then advance the cursor by the decoded buffer's duration.  Returns
the new timeline and the chunk's start time. -/
def MediaPlayer.appendToAudioContext (t : Timeline) (now duration : ℚ) :
    Timeline × ℚ :=
  let start := if t.nextChunkStartTime < now then now else t.nextChunkStartTime
  ({ nextChunkStartTime := start + duration }, start)

/-- The cursor reset of `MediaPlayer.clearPlaylist` (line 150):
`this.nextChunkStartTime = this.context.currentTime()`. -/
def MediaPlayer.clearPlaylistCursor (now : ℚ) : Timeline :=
  { nextChunkStartTime := now }

/-! ### `MediaPlayer.buffer` loop -/

/-- The buffering-relevant fields of a `MediaPlayer`: the pending
`playlist`, the pending `chunkList` and the timeline cursor. -/
structure BufferState where
  playlist : List String := []
  chunkList : List String := []
  nextChunkStartTime : ℚ := 0
deriving DecidableEq, Repr

/-- One run of `MediaPlayer.buffer` (lines 157-206).  `now` is
`this.context.currentTime()`, `bufferSizeSeconds` the configured lookahead.
`indexFetch` models `loadChunkList`'s settled outcome per path (`none` = the
await threw, which line 176-178 swallows); `chunkFetch` models the chunk
fetch + decode outcome, giving a decoded duration or `none` on failure
(which line 198-202 swallows).  Returns the new state and whether
`scheduleBufferTicker` was called before returning. -/
def MediaPlayer.buffer (s : BufferState) (now bufferSizeSeconds : ℚ)
    (indexFetch : String → Option (List String))
    (chunkFetch : String → Option ℚ) : BufferState × Bool :=
  if s.playlist.length < 1 ∧ s.chunkList.length < 1 then
    (s, false)
  else if s.nextChunkStartTime - now > bufferSizeSeconds then
    (s, true)
  else
    let (playlist, chunkList) :=
      if s.chunkList.length < 1 then
        let mediaItemPath := s.playlist.head?.getD ""
        match indexFetch mediaItemPath with
        | some chunks => (s.playlist.tail, s.chunkList ++ chunks)
        | none => (s.playlist.tail, s.chunkList)
      else (s.playlist, s.chunkList)
    match chunkList with
    | [] => ({ s with playlist := playlist, chunkList := [] }, true)
    | nextChunkPath :: restChunks =>
      match chunkFetch nextChunkPath with
      | some duration =>
        let t := MediaPlayer.appendToAudioContext
          { nextChunkStartTime := s.nextChunkStartTime } now duration
        ({ playlist := playlist, chunkList := restChunks,
           nextChunkStartTime := t.1.nextChunkStartTime }, true)
      | none =>
        ({ s with playlist := playlist, chunkList := restChunks }, true)

/-! ### `MediaPlayer.loadChunkList` -/

/-- Embeds `path.substring(0, path.lastIndexOf('/'))` (line 214): the prefix of
`path` before its last `'/'`, or `""` when there is none (JS `lastIndexOf`
yields `-1` and `substring(0, -1)` is empty).  Computed by reversing,
dropping up to and including the last slash, and reversing back. -/
def basePathOf (path : String) : String :=
  String.mk (((path.data.reverse.dropWhile fun c => c ≠ '/').drop 1).reverse)

/-- JS `String.prototype.trim()`: strips leading and trailing whitespace. -/
def jsTrim (s : String) : String :=
  String.mk
    (((s.data.dropWhile Char.isWhitespace).reverse.dropWhile
        Char.isWhitespace).reverse)

/-- JS `String.prototype.split('\n')` on the underlying character list:
every separator produces a boundary, so leading/trailing/adjacent
separators produce empty fields and the empty string yields `[[]]`. -/
def splitNewlineChars : List Char → List (List Char)
  | [] => [[]]
  | c :: rest =>
    match splitNewlineChars rest with
    | [] => [[]]
    | line :: lines =>
      if c = '\n' then [] :: line :: lines else (c :: line) :: lines

/-- JS `text.split('\n')` as a list of strings. -/
def jsSplitNewline (s : String) : List String :=
  (splitNewlineChars s.data).map String.mk

/-- The trimmed non-blank lines of an index file's text, in order:
`text.trim().split('\n').map(trim).filter(nonEmpty)` (lines 220-224). -/
def trimmedNonBlankLines (text : String) : List String :=
  ((jsSplitNewline (jsTrim text)).map jsTrim).filter fun v => v.length > 0

/-- Embeds `MediaPlayer.loadChunkList` (lines 213-226) on a successfully fetched
response body `text`: resolves each trimmed non-blank line against the
index file's own directory. -/
def MediaPlayer.loadChunkList (path text : String) : List String :=
  (((jsSplitNewline (jsTrim text)).map jsTrim).filter
      fun v => v.length > 0).map
    fun v => basePathOf path ++ "/" ++ v

/-! ## Theorems -/

/-- C1 (counterexample): with two paused sessions `"a"` and `"b"` and the
manager in `Paused` state, `playSound("a")` issues a `play()` call to the
player of `"b"` as well as to the player of `"a"` itself — the existing
session is actually started and another session is told to change state,
contradicting the claim that starting one sound while the mix is paused
does not resume everything. -/
theorem playSound_while_paused_counterexample :
    SoundPlayerManager.playSoundPlays SoundPlayerManagerState.Paused
      ["a", "b"] "a" = ["a", "b"] ∧
    "b" ∈ SoundPlayerManager.playSoundPlays SoundPlayerManagerState.Paused
      ["a", "b"] "a" ∧
    "a" ∈ SoundPlayerManager.playSoundPlays SoundPlayerManagerState.Paused
      ["a", "b"] "a" := by
  refine ⟨?_, ?_, ?_⟩ <;> decide

/-- C1 (amended): when the manager's aggregate state is `Paused`,
`playSound(soundId)` calls `resume()`, which tells every registered session
— the session for `soundId` included — to play; when the aggregate state is
not `Paused`, only the session for `soundId` is told to play. -/
theorem playSound_play_commands (state : SoundPlayerManagerState)
    (registry : List String) (soundId : String) :
    (state = SoundPlayerManagerState.Paused →
      SoundPlayerManager.playSoundPlays state registry soundId =
        playSoundRegistry registry soundId ∧
      soundId ∈ SoundPlayerManager.playSoundPlays state registry soundId ∧
      ∀ j ∈ registry, j ∈ SoundPlayerManager.playSoundPlays state registry soundId) ∧
    (state ≠ SoundPlayerManagerState.Paused →
      SoundPlayerManager.playSoundPlays state registry soundId = [soundId]) := by
  constructor
  · intro h
    subst h
    refine ⟨by simp [SoundPlayerManager.playSoundPlays], ?_, ?_⟩
    · by_cases h : soundId ∈ registry <;>
        simp [SoundPlayerManager.playSoundPlays, playSoundRegistry, h]
    · intro j hj
      by_cases h : soundId ∈ registry <;>
        simp [SoundPlayerManager.playSoundPlays, playSoundRegistry, h, hj]
  · intro h
    simp [SoundPlayerManager.playSoundPlays, h]

/-- C1 (witness): the amended statement at a concrete input — resuming a
paused mix plays the whole registry, and playing while not paused plays only
the requested sound. -/
theorem playSound_play_commands_witness :
    SoundPlayerManager.playSoundPlays SoundPlayerManagerState.Paused ["x"] "y" =
      playSoundRegistry ["x"] "y" ∧
    SoundPlayerManager.playSoundPlays SoundPlayerManagerState.Playing ["x"] "y" =
      ["y"] :=
  ⟨((playSound_play_commands SoundPlayerManagerState.Paused ["x"] "y").1 rfl).1,
    (playSound_play_commands SoundPlayerManagerState.Playing ["x"] "y").2
      (by decide)⟩

/-- C2 (counterexample): after exactly one metadata-fetch failure the delay
scheduled before the second attempt is 2000 ms, because `loadMetadata`
doubles the stored delay (initially 1000 ms) before scheduling the retry —
so the delay is not strictly less than 2 seconds as claimed. -/
theorem metadata_retry_delay_counterexample :
    retryDelayAfterFailures 1 = 2000 ∧ ¬ retryDelayAfterFailures 1 < 2000 := by
  constructor <;> decide

/-- C2 (amended): the stored retry delay starts at
`MIN_RETRY_DELAY_MILLIS = 1000` and is doubled (capping at
`MAX_RETRY_DELAY_MILLIS = 30000`) before each retry is scheduled, so after
`n + 1` consecutive failures the scheduled delay is
`min (1000 * 2 ^ (n + 1)) 30000`; in particular the delay before the second
attempt is exactly 2000 ms, every scheduled delay stays within
`[MIN, MAX]`, and a successful fetch resets the stored delay to the minimum
and proceeds to `queueNextSegment`. -/
theorem metadata_retry_backoff (n : Nat) (s : MetadataState) :
    retryDelayAfterFailures (n + 1) =
      min (MIN_RETRY_DELAY_MILLIS * 2 ^ (n + 1)) MAX_RETRY_DELAY_MILLIS ∧
    retryDelayAfterFailures 1 = 2000 ∧
    retryDelayAfterFailures (n + 1) ≤ MAX_RETRY_DELAY_MILLIS ∧
    MIN_RETRY_DELAY_MILLIS ≤ retryDelayAfterFailures (n + 1) ∧
    SoundPlayer.loadMetadataStep s true =
      ({ isLoadingMetadata := false,
         metadataRetryDelayMillis := MIN_RETRY_DELAY_MILLIS },
        MetadataAction.queueNextSegment) := by
  have key : ∀ m, retryDelayAfterFailures (m + 1) =
      min (MIN_RETRY_DELAY_MILLIS * 2 ^ (m + 1)) MAX_RETRY_DELAY_MILLIS := by
    intro m
    induction m with
    | zero => decide
    | succ k ih =>
      have hstep : retryDelayAfterFailures (k + 2) =
          min (retryDelayAfterFailures (k + 1) * 2) MAX_RETRY_DELAY_MILLIS := by
        simp [retryDelayAfterFailures, SoundPlayer.loadMetadataStep]
      have hpow : MIN_RETRY_DELAY_MILLIS * 2 ^ (k + 2) =
          MIN_RETRY_DELAY_MILLIS * 2 ^ (k + 1) * 2 := by ring
      rw [hstep, ih, hpow]
      unfold MAX_RETRY_DELAY_MILLIS
      omega
  have hone : (1 : Nat) ≤ 2 ^ (n + 1) := Nat.one_le_two_pow
  refine ⟨key n, by decide, ?_, ?_, ?_⟩
  · rw [key n]
    exact Nat.min_le_right _ _
  · rw [key n]
    refine Nat.le_min.mpr ⟨?_, by decide⟩
    calc MIN_RETRY_DELAY_MILLIS = MIN_RETRY_DELAY_MILLIS * 1 := by ring
    _ ≤ MIN_RETRY_DELAY_MILLIS * 2 ^ (n + 1) := Nat.mul_le_mul_left _ hone
  · cases s
    simp [SoundPlayer.loadMetadataStep]

/-- C3: for every multiset of session states reaching the manager's
registry, once a `Stopped` player has been disposed of (the registry never
holds one when `reconcileState` runs), the reconciled aggregate state is
`Idle` iff every live session is `Stopping` or `Stopped`, `Paused` iff not
all are Stopping/Stopped but every live session is `Stopping`, `Pausing` or
`Paused`, and `Playing` otherwise; in particular `{Playing, Paused}`
reconciles to `Playing`, `{Paused, Stopped}` to `Paused`, and `{}` or
`{Stopped}` to `Idle`. -/
theorem reconcileState_characterisation (states : List SoundPlayerState) :
    (reconcileState (liveSessions states) = SoundPlayerManagerState.Idle ↔
      ∀ s ∈ liveSessions states, s = Stopping ∨ s = Stopped) ∧
    (reconcileState (liveSessions states) = SoundPlayerManagerState.Paused ↔
      (¬ (∀ s ∈ liveSessions states, s = Stopping ∨ s = Stopped) ∧
        ∀ s ∈ liveSessions states, s = Stopping ∨ s = Pausing ∨ s = Paused)) ∧
    (reconcileState (liveSessions states) = SoundPlayerManagerState.Playing ↔
      (¬ (∀ s ∈ liveSessions states, s = Stopping ∨ s = Stopped) ∧
        ¬ ∀ s ∈ liveSessions states, s = Stopping ∨ s = Pausing ∨ s = Paused)) ∧
    reconcileState (liveSessions [Playing, Paused]) =
      SoundPlayerManagerState.Playing ∧
    reconcileState (liveSessions [Paused, Stopped]) =
      SoundPlayerManagerState.Paused ∧
    reconcileState (liveSessions []) = SoundPlayerManagerState.Idle ∧
    reconcileState (liveSessions [Stopped]) = SoundPlayerManagerState.Idle := by
  have hIdle : (isIdleFlag (liveSessions states) = true) ↔
      ∀ s ∈ liveSessions states, s = Stopping ∨ s = Stopped := by
    simp [isIdleFlag, List.all_eq_true]
  have hPaused : (isPausedFlag (liveSessions states) = true) ↔
      ∀ s ∈ liveSessions states, s = Stopping ∨ s = Pausing ∨ s = Paused := by
    simp [isPausedFlag, List.all_eq_true, or_assoc]
  refine ⟨?_, ?_, ?_, by decide, by decide, by decide, by decide⟩
  · rw [← hIdle]
    unfold reconcileState
    by_cases hI : isIdleFlag (liveSessions states) <;>
      by_cases hP : isPausedFlag (liveSessions states) <;> simp [hI, hP]
  · rw [← hIdle, ← hPaused]
    unfold reconcileState
    by_cases hI : isIdleFlag (liveSessions states) <;>
      by_cases hP : isPausedFlag (liveSessions states) <;> simp [hI, hP]
  · rw [← hIdle, ← hPaused]
    unfold reconcileState
    by_cases hI : isIdleFlag (liveSessions states) <;>
      by_cases hP : isPausedFlag (liveSessions states) <;> simp [hI, hP]

/-- C4: each scheduled chunk starts at `max(cursor, now)`, which is never
before the clock time at scheduling; the cursor is then advanced by the
chunk's duration, so the next chunk scheduled starts no earlier than
`start + duration`; appending never moves the cursor backward (durations
are nonnegative), and `clearPlaylist` resets the cursor to the current
clock time. -/
theorem timeline_scheduling (t : Timeline) (now₁ now₂ d₁ d₂ : ℚ)
    (h₁ : 0 ≤ d₁) :
    (MediaPlayer.appendToAudioContext t now₁ d₁).2 =
      max t.nextChunkStartTime now₁ ∧
    now₁ ≤ (MediaPlayer.appendToAudioContext t now₁ d₁).2 ∧
    (MediaPlayer.appendToAudioContext t now₁ d₁).2 + d₁ ≤
      (MediaPlayer.appendToAudioContext
        (MediaPlayer.appendToAudioContext t now₁ d₁).1 now₂ d₂).2 ∧
    (MediaPlayer.appendToAudioContext t now₁ d₁).1.nextChunkStartTime =
      (MediaPlayer.appendToAudioContext t now₁ d₁).2 + d₁ ∧
    t.nextChunkStartTime ≤
      (MediaPlayer.appendToAudioContext t now₁ d₁).1.nextChunkStartTime ∧
    (MediaPlayer.clearPlaylistCursor now₁).nextChunkStartTime = now₁ := by
  unfold MediaPlayer.appendToAudioContext MediaPlayer.clearPlaylistCursor
  dsimp only
  refine ⟨?_, ?_, ?_, rfl, ?_, rfl⟩
  · split_ifs with h
    · exact (max_eq_right h.le).symm
    · exact (max_eq_left (not_lt.mp h)).symm
  · split_ifs with h
    · exact le_refl _
    · exact not_lt.mp h
  · split_ifs with h h' h' <;> linarith
  · split_ifs with h <;> linarith

/-- C4 (witness): the scheduling bound instantiated at cursor 0, clock 0
and a chunk of duration 1. -/
theorem timeline_scheduling_witness :
    (0 : ℚ) ≤ 1 ∧
    (0 : ℚ) ≤ (MediaPlayer.appendToAudioContext ⟨0⟩ 0 1).2 :=
  ⟨by norm_num, (timeline_scheduling ⟨0⟩ 0 0 1 1 (by norm_num)).2.1⟩

/-- C5: when the previously queued segment is a bridge with declared
destination `X` and the eligible-segment set contains a segment named `X`,
the next selection deterministically yields a segment named `X` — the
outcome does not depend on the random oracle at all. -/
theorem bridge_destination_selection (segments : List Segment)
    (premium : Bool) (cs : Segment) (X : String) (maxSilenceSeconds : Nat)
    (rand₁ rand₂ : Nat → Nat) (hb : cs.isBridge = true)
    (hto : cs.toName = some X)
    (hex : ∃ s ∈ validSegmentsOf segments premium, s.name = X) :
    (∃ s, selectNextSegment segments premium (some cs) maxSilenceSeconds rand₁ =
      some s ∧ s.name = X) ∧
    selectNextSegment segments premium (some cs) maxSilenceSeconds rand₁ =
      selectNextSegment segments premium (some cs) maxSilenceSeconds rand₂ := by
  have hsel : ∀ r : Nat → Nat,
      selectNextSegment segments premium (some cs) maxSilenceSeconds r =
        (validSegmentsOf segments premium).find? fun s =>
          some s.name == cs.toName := by
    intro r
    simp [selectNextSegment, hb]
  obtain ⟨s, hs, hname⟩ := hex
  have hsome : ((validSegmentsOf segments premium).find? fun s =>
      some s.name == cs.toName).isSome := by
    rw [List.find?_isSome]
    exact ⟨s, hs, by simp [hname, hto]⟩
  obtain ⟨s₀, hs₀⟩ := Option.isSome_iff_exists.mp hsome
  have hfound := List.find?_some hs₀
  refine ⟨⟨s₀, ?_, ?_⟩, by rw [hsel rand₁, hsel rand₂]⟩
  · rw [hsel rand₁]
    exact hs₀
  · rw [hto] at hfound
    simpa using hfound

/-- C5 (witness): for segments `A`, `B` and the bridge `A_B` with
destination `B`, the selection following the bridge yields a segment named
`B`. -/
theorem bridge_destination_selection_witness :
    ∃ s, selectNextSegment
      [{ name := "A", basePath := "sounds/A", isFree := true,
         isBridge := false },
       { name := "B", basePath := "sounds/B", isFree := true,
         isBridge := false },
       { name := "A_B", basePath := "sounds/A_B", isFree := true,
         isBridge := true, fromName := some "A", toName := some "B" }]
      true
      (some { name := "A_B", basePath := "sounds/A_B", isFree := true,
              isBridge := true, fromName := some "A", toName := some "B" })
      0 (fun _ => 0) = some s ∧ s.name = "B" :=
  (bridge_destination_selection _ true _ "B" 0 (fun _ => 0) (fun _ => 1)
    rfl rfl (by decide)).1

/-- C6: one run of `MediaPlayer.buffer` ends without calling
`scheduleBufferTicker` exactly when both the pending playlist and the
pending chunk list were empty at entry — for every clock value, lookahead
size, index-fetch outcome (including failure, which is swallowed) and
chunk-fetch outcome (including failure, which is swallowed), the loop
reschedules whenever any work was pending. -/
theorem buffer_reschedules_iff (s : BufferState) (now bufferSizeSeconds : ℚ)
    (indexFetch : String → Option (List String))
    (chunkFetch : String → Option ℚ) :
    (MediaPlayer.buffer s now bufferSizeSeconds indexFetch chunkFetch).2 =
      false ↔ (s.playlist = [] ∧ s.chunkList = []) := by
  obtain ⟨pl, cl, nct⟩ := s
  rcases pl with _ | ⟨p, ps⟩ <;> rcases cl with _ | ⟨c, cs⟩ <;>
    simp only [MediaPlayer.buffer] <;> norm_num
  · -- playlist empty, chunkList `c :: cs`
    split_ifs
    · simp
    · rcases hcf : chunkFetch c with _ | d <;> simp [hcf]
  · -- playlist `p :: ps`, chunkList empty
    split_ifs
    · simp
    · rcases hif : indexFetch p with _ | chunks
      · simp [hif]
      · rcases chunks with _ | ⟨c, rest⟩
        · simp [hif]
        · rcases hcf : chunkFetch c with _ | d <;> simp [hif, hcf]
  · -- both non-empty
    split_ifs
    · simp
    · rcases hcf : chunkFetch c with _ | d <;> simp [hcf]

/-- C7: each of `MediaPlayer.setVolume`, `SoundPlayerManager.setVolume` and
`SoundPlayerManager.setSoundVolume` raises an error for any argument below
0 or above 1, before any stored volume is changed (the error is returned
instead of a new state); and for an in-range per-sound multiplier `s`, with
the master multiplier stored in the manager and the player's own
`masterVolume` still at its initial value 1 (the manager never calls
`setMasterVolume`), the gain pushed to the sound's underlying player is
`(master * s) ^ 2`. -/
theorem volume_setter_bounds_and_gain (p : MediaPlayerVolume)
    (m : ManagerVolumes) (soundId : String) (v s : ℚ) (pl : SoundPlayerVolume)
    (hv : v < 0 ∨ 1 < v) (hlookup : m.soundPlayers.lookup soundId = some pl)
    (hmaster : pl.masterVolume = 1) (hs0 : 0 ≤ s) (hs1 : s ≤ 1) :
    MediaPlayer.setVolume p v = Except.error "volume must be in range [0, 1]" ∧
    SoundPlayerManager.setVolume m v =
      Except.error "volume must be in range [0, 1]" ∧
    SoundPlayerManager.setSoundVolume m soundId v =
      Except.error "volume must be in range [0, 1]" ∧
    setterGains (SoundPlayerManager.setSoundVolume m soundId s) =
      [(soundId, (m.volume * s) ^ 2)] := by
  have hv' : v < 0 ∨ v > 1 := hv.imp id id
  refine ⟨?_, ?_, ?_, ?_⟩
  · simp [MediaPlayer.setVolume, hv']
  · simp [SoundPlayerManager.setVolume, hv']
  · simp [SoundPlayerManager.setSoundVolume, hv']
  · have hs : ¬ (s < 0 ∨ s > 1) := by
      push_neg
      exact ⟨by linarith, by linarith⟩
    simp only [SoundPlayerManager.setSoundVolume, hs, if_neg, hlookup]
    simp [setterGains, SoundPlayer.setVolume, SoundPlayer.setVolumeInternal,
      SoundPlayer.getScaledVolume, hmaster]

/-- C7 (witness): with master volume `1/2` and a registered player for
`"rain"`, setting the sound volume to `1/2` pushes the effective gain
`(1/2 * 1/2) ^ 2 = 0.0625`, and setting volume `2` errors on all three
setters. -/
theorem volume_setter_bounds_and_gain_witness :
    MediaPlayer.setVolume {} 2 =
      Except.error "volume must be in range [0, 1]" ∧
    setterGains
      (SoundPlayerManager.setSoundVolume
        { volume := 1/2, soundPlayerVolumes := [],
          soundPlayers := [("rain", {})] } "rain" (1/2)) =
      [("rain", (0.0625 : ℚ))] := by
  have h := volume_setter_bounds_and_gain {}
    { volume := 1/2, soundPlayerVolumes := [], soundPlayers := [("rain", {})] }
    "rain" 2 (1/2) {} (by norm_num) rfl rfl (by norm_num) (by norm_num)
  refine ⟨h.1, ?_⟩
  rw [h.2.2.2]
  norm_num

/-- C8: resolving an index file whose body has `N` trimmed non-blank lines
yields exactly `N` chunk paths, the `k`-th equal to the index file's own
directory, a `/`, and the `k`-th trimmed non-blank line, in original order;
blank lines are ignored, as the concrete three-line example with an empty
line shows. -/
theorem loadChunkList_resolves_lines (path text : String) :
    (MediaPlayer.loadChunkList path text).length =
      (trimmedNonBlankLines text).length ∧
    (∀ k : Nat, (MediaPlayer.loadChunkList path text)[k]? =
      ((trimmedNonBlankLines text)[k]?).map
        fun v => basePathOf path ++ "/" ++ v) ∧
    MediaPlayer.loadChunkList "library/a/128k/index.jan"
        "0000.mp3\n\n0001.mp3\n" =
      ["library/a/128k/0000.mp3", "library/a/128k/0001.mp3"] ∧
    basePathOf "library/a/128k/index.jan" = "library/a/128k" := by
  have hdef : MediaPlayer.loadChunkList path text =
      (trimmedNonBlankLines text).map
        fun v => basePathOf path ++ "/" ++ v := rfl
  refine ⟨?_, ?_, by decide, by decide⟩
  · rw [hdef, List.length_map]
  · intro k
    rw [hdef, List.getElem?_map]

/-- C9 (counterexample): the manager's volume setters have no
changed-value guard — with the master volume already at its initial value
1, `setVolume(1)` still dispatches `EVENT_VOLUME_CHANGE`, and with the
per-sound volume for `"a"` already stored as 1, `setSoundVolume("a", 1)`
still dispatches the per-sound volume-change event. -/
theorem volume_event_dispatched_when_unchanged :
    ({} : ManagerVolumes).volume = 1 ∧
    setterEvents (SoundPlayerManager.setVolume {} 1) = [EVENT_VOLUME_CHANGE] ∧
    setterEvents (SoundPlayerManager.setVolume {} 1) ≠ [] ∧
    ({ soundPlayerVolumes := [("a", 1)] } :
        ManagerVolumes).soundPlayerVolumes.lookup "a" = some 1 ∧
    setterEvents (SoundPlayerManager.setSoundVolume
        { soundPlayerVolumes := [("a", 1)] } "a" 1) =
      ["a" ++ "." ++ EVENT_VOLUME_CHANGE] := by
  refine ⟨rfl, ?_, ?_, by decide, ?_⟩ <;>
    norm_num [SoundPlayerManager.setVolume, SoundPlayerManager.setSoundVolume,
      setterEvents]

/-- C9 (amended): the manager-state notification (`reconcileState`) and the
per-player state notification (`SoundPlayer.setState`, which is what
triggers the per-sound state-change event) are dispatched exactly when the
newly observed state differs from the previous one; the master and
per-sound volume-change notifications, by contrast, are dispatched on every
in-range setter call, whether or not the value changed. -/
theorem notification_dispatch_guards (old new : SoundPlayerManagerState)
    (po pn : SoundPlayerState) (m : ManagerVolumes) (soundId : String)
    (v : ℚ) (h0 : 0 ≤ v) (h1 : v ≤ 1) :
    ((SoundPlayerManager.applyReconciledState old new).2 ≠ [] ↔ new ≠ old) ∧
    ((SoundPlayer.setState po pn).2 ≠ [] ↔ pn ≠ po) ∧
    setterEvents (SoundPlayerManager.setVolume m v) = [EVENT_VOLUME_CHANGE] ∧
    setterEvents (SoundPlayerManager.setSoundVolume m soundId v) =
      [soundId ++ "." ++ EVENT_VOLUME_CHANGE] := by
  have hv : ¬ (v < 0 ∨ v > 1) := by
    push_neg
    exact ⟨by linarith, by linarith⟩
  refine ⟨?_, ?_, ?_, ?_⟩
  · unfold SoundPlayerManager.applyReconciledState
    split_ifs with h
    · subst h
      simp
    · simp [Ne.symm h]
  · unfold SoundPlayer.setState
    split_ifs with h
    · subst h
      simp
    · simp [Ne.symm h]
  · simp [SoundPlayerManager.setVolume, hv, setterEvents]
  · simp only [SoundPlayerManager.setSoundVolume, hv, if_neg]
    cases m.soundPlayers.lookup soundId <;> simp [setterEvents]

/-- C9 (amended, witness): the always-dispatching volume setter at a
concrete in-range input. -/
theorem notification_dispatch_guards_witness :
    setterEvents (SoundPlayerManager.setVolume {} 1) = [EVENT_VOLUME_CHANGE] :=
  (notification_dispatch_guards SoundPlayerManagerState.Idle
    SoundPlayerManagerState.Idle SoundPlayerState.Idle SoundPlayerState.Idle
    {} "a" 1 (by norm_num) (by norm_num)).2.2.1

/-- A sound's volume-change channel and state-change channel are distinct
event names, whatever the sound id. -/
lemma soundVolumeChannel_ne_soundStateChannel (soundId : String) :
    soundId ++ "." ++ EVENT_VOLUME_CHANGE ≠ soundId ++ "." ++ EVENT_STATE_CHANGE := by
  intro h
  have hd := congrArg String.data h
  simp only [String.data_append] at hd
  have := List.append_cancel_left hd
  simp [EVENT_VOLUME_CHANGE, EVENT_STATE_CHANGE] at this

/-- C10: registering a per-sound volume listener and then removing it via
`removeSoundVolumeListener` leaves the callback registered on the
volume-change channel (the removal targets the state-change channel
instead), so it is still invoked when the per-sound volume-change event —
the one `setSoundVolume` always dispatches for in-range values — is
dispatched. -/
theorem removeSoundVolumeListener_leaks (et : EventTarget) (soundId : String)
    (cb : Nat) (m : ManagerVolumes) (v : ℚ) (h0 : 0 ≤ v) (h1 : v ≤ 1) :
    (soundId ++ "." ++ EVENT_VOLUME_CHANGE, cb) ∈
      SoundPlayerManager.removeSoundVolumeListener
        (SoundPlayerManager.addSoundVolumeListener et soundId cb) soundId cb ∧
    cb ∈ EventTarget.dispatch
      (SoundPlayerManager.removeSoundVolumeListener
        (SoundPlayerManager.addSoundVolumeListener et soundId cb) soundId cb)
      (soundId ++ "." ++ EVENT_VOLUME_CHANGE) ∧
    setterEvents (SoundPlayerManager.setSoundVolume m soundId v) =
      [soundId ++ "." ++ EVENT_VOLUME_CHANGE] := by
  have hv : ¬ (v < 0 ∨ v > 1) := by
    push_neg
    exact ⟨by linarith, by linarith⟩
  have hne : (soundId ++ "." ++ EVENT_VOLUME_CHANGE, cb) ≠
      (soundId ++ "." ++ EVENT_STATE_CHANGE, cb) := by
    intro h
    exact soundVolumeChannel_ne_soundStateChannel soundId
      (congrArg Prod.fst h)
  have hmem : (soundId ++ "." ++ EVENT_VOLUME_CHANGE, cb) ∈
      SoundPlayerManager.addSoundVolumeListener et soundId cb := by
    unfold SoundPlayerManager.addSoundVolumeListener EventTarget.addEventListener
    split_ifs with h
    · exact h
    · simp
  have hmem' : (soundId ++ "." ++ EVENT_VOLUME_CHANGE, cb) ∈
      SoundPlayerManager.removeSoundVolumeListener
        (SoundPlayerManager.addSoundVolumeListener et soundId cb) soundId cb := by
    unfold SoundPlayerManager.removeSoundVolumeListener
      EventTarget.removeEventListener
    rw [List.mem_filter]
    exact ⟨hmem, by simp [hne]⟩
  refine ⟨hmem', ?_, ?_⟩
  · unfold EventTarget.dispatch
    rw [List.mem_map]
    refine ⟨(soundId ++ "." ++ EVENT_VOLUME_CHANGE, cb), ?_, rfl⟩
    rw [List.mem_filter]
    exact ⟨hmem', by simp⟩
  · simp only [SoundPlayerManager.setSoundVolume, hv, if_neg]
    cases m.soundPlayers.lookup soundId <;> simp [setterEvents]

/-- C10 (witness): the leak at a concrete sound id and callback. -/
theorem removeSoundVolumeListener_leaks_witness :
    ("rain" ++ "." ++ EVENT_VOLUME_CHANGE, 7) ∈
      SoundPlayerManager.removeSoundVolumeListener
        (SoundPlayerManager.addSoundVolumeListener [] "rain" 7) "rain" 7 :=
  (removeSoundVolumeListener_leaks [] "rain" 7 {} 1 (by norm_num)
    (by norm_num)).1

end January
